import Mathlib

/-!
Shallow embedding of pkg/pjsekaioverlay/chart.go (pjsekai-overlay).

Go functions are translated into Lean functions.  External effects
(HTTP, the filesystem, the stdlib codecs for gzip / JSON / images, and
the sonolus URL join helper) are supplied through an explicit `Env`
record of functions, and every operation additionally returns the list
of observable side-effect events (network calls, directory creation,
file creation and file writes) it performed, in order.  Go's
conventional (value, error) multi-return is kept as a Lean pair with an
`Option String` error component, carrying the exact message strings
built by the Go code.
-/

set_option autoImplicit false

namespace PjsekaiOverlay

/-- The `Source` struct of chart.go: a chart-hosting service. -/
structure Source where
  id : String
  name : String
  color : Nat
  host : String
deriving Repr, DecidableEq, Inhabited

/-- Modelled from the spec: pkg/sonolus is not under src/.  A record in
the metadata holding a relative URL (`level.Data.Url`, `level.Cover.Url`,
`level.UseBackground.Item.Image.Url` in chart.go). -/
structure SrvUrl where
  url : String
deriving Repr, DecidableEq, Inhabited

/-- Modelled from the spec: the background reference nested inside the
metadata, whose record contains a relative URL to a background image. -/
structure BackgroundItem where
  image : SrvUrl
deriving Repr, DecidableEq, Inhabited

/-- Modelled from the spec: the optional background entry of the metadata
(accessed as `level.UseBackground.Item` in chart.go). -/
structure UseBackground where
  item : BackgroundItem
deriving Repr, DecidableEq, Inhabited

/-- Modelled from the spec: `sonolus.LevelInfo`, the metadata record.  It
must contain at minimum a relative URL to compressed level data, a
relative URL to a cover image, and a background reference. -/
structure LevelInfo where
  data : SrvUrl
  cover : SrvUrl
  useBackground : UseBackground
deriving Repr, DecidableEq, Inhabited

/-- The zero value of `sonolus.LevelInfo`, returned by FetchChart on
failure paths. -/
def LevelInfo.zero : LevelInfo :=
  ⟨⟨""⟩, ⟨""⟩, ⟨⟨⟨""⟩⟩⟩⟩

/-- Modelled from the spec: `sonolus.LevelData`, the decoded gameplay
data blob, treated as an opaque structured document by this core. -/
structure LevelData where
  doc : String
deriving Repr, DecidableEq, Inhabited

/-- The zero value of `sonolus.LevelData`, returned on failure paths. -/
def LevelData.zero : LevelData :=
  ⟨""⟩

/-- Modelled from the spec: `sonolus.InfoResponse`, the JSON envelope
wrapping a single item. -/
structure InfoResponse where
  item : LevelInfo
deriving Repr, DecidableEq, Inhabited

/-- An HTTP response: status code plus body bytes. -/
structure HttpResponse where
  statusCode : Nat
  body : List Nat
deriving Repr, DecidableEq, Inhabited

/-- A decoded raster image, as Go's image.Image: bounds plus a pixel
function (packed RGBA value at each coordinate). -/
structure GoImage where
  width : Nat
  height : Nat
  pixelAt : Nat → Nat → Nat

/-- Observable side-effect events of the chart.go operations, in the
order they are performed. -/
inductive Event where
  | httpGet (url : String)
  | mkdirAll (dir : String) (perm : Nat)
  | fileCreate (file : String)
  | fileWrite (file : String) (content : List Nat)
deriving Repr, DecidableEq

/-- Go's path.Join of a directory and a file name, as used by chart.go
(`path.Join(destPath, "cover.png")`). -/
def pathJoin (dir file : String) : String :=
  dir ++ "/" ++ file

/-- The external world chart.go runs against: HTTP transport, the
sonolus JoinUrl helper, the stdlib gzip / JSON / image codecs and the
filesystem outcomes.  Each field mirrors one external call site. -/
structure Env where
  /-- `http.Get url`: a response, or a transport error. -/
  httpGet : String → Except String HttpResponse
  /-- `sonolus.JoinUrl base rel`: Go multi-return (url, err). -/
  joinUrl : String → String → String × Option String
  /-- `gzip.NewReader` + reading the stream: decompressed bytes, or an
  open/stream error. -/
  gzipDecode : List Nat → Except String (List Nat)
  /-- `json.NewDecoder(...).Decode(&data)` for LevelData. -/
  decodeLevelData : List Nat → Except String LevelData
  /-- `json.NewDecoder(...).Decode(&chart)` for the metadata envelope:
  Go writes whatever it managed to decode into `chart` and also returns
  an error; both are modelled. -/
  decodeInfo : List Nat → InfoResponse × Option String
  /-- `image.Decode`: the decoded raster image, or a decode error. -/
  imageDecode : List Nat → Except String GoImage
  /-- The ApproxBiLinear resampling kernel of golang.org/x/image/draw:
  sample the source image for destination size (dw, dh) at destination
  pixel (x, y). -/
  approxBiLinearSample : GoImage → Nat → Nat → Nat → Nat → Nat
  /-- `png.Encode`: the PNG byte encoding of an image. -/
  pngEncode : GoImage → List Nat
  /-- `os.Create p`: `none` on success, `some err` on failure. -/
  fileCreate : String → Option String
  /-- The error result of `io.Copy` / of writing during `png.Encode`:
  `none` means every byte was written. -/
  ioCopyErr : Option String
  /-- The bytes that actually reached the file when the copy failed. -/
  ioCopyWrittenOnErr : List Nat

/-- Error message built by FetchChart on transport failure. -/
def connectFailedChartMsg : String :=
  "サーバーに接続できませんでした。(Could not connect to server.)"

/-- Error message built by FetchChart on a non-200 status. -/
def chartNotFoundMsg : String :=
  "譜面が見つかりませんでした。(Unable to search chart.)"

/-- Error message built on a JoinUrl failure (FetchLevelData and
DownloadCover). -/
def urlParseFailMsg (e : String) : String :=
  "URLの解析に失敗しました。(URL parsing failed.) [" ++ e ++ "]"

/-- Error message built on transport failure with the underlying error
appended (FetchLevelData and DownloadBackground). -/
def connectFailedMsg (e : String) : String :=
  "サーバーに接続できませんでした。(Could not connect to server.) [" ++ e ++ "]"

/-- Error message built by DownloadCover on transport failure (the
full-width parenthesis variant used only there). -/
def coverConnectFailedMsg (e : String) : String :=
  "サーバーに接続できませんでした。（" ++ e ++ "）"

/-- Error message built by DownloadCover on a non-200 status: note this
reuses the could-not-connect wording, with the status appended. -/
def coverNon200Msg (status : Nat) : String :=
  "サーバーに接続できませんでした。(Could not connect to server.) [" ++ toString status ++ "]"

/-- Error message built by FetchLevelData on a non-200 status. -/
def levelDataNotFoundMsg (status : Nat) : String :=
  "譜面データが見つかりませんでした。(No chart data found.) [" ++ toString status ++ "]"

/-- Error message built by FetchLevelData on a gzip or JSON decode
failure. -/
def levelDataLoadFailMsg (e : String) : String :=
  "譜面データの読み込みに失敗しました。(Loading chart data failed.) [" ++ e ++ "]"

/-- Error message built by DownloadCover on an image decode failure. -/
def jacketLoadFailMsg (e : String) : String :=
  "ジャケットの読み込みに失敗しました。(Loading jacket failed.) [" ++ e ++ "]"

/-- Error message built on an os.Create failure. -/
def fileCreateFailMsg (e : String) : String :=
  "ファイルの作成に失敗しました。(Failed to create file.) [" ++ e ++ "]"

/-- Error message built on a write failure. -/
def fileWriteFailMsg (e : String) : String :=
  "ファイルの書き込みに失敗しました。(Failed to write file.) [" ++ e ++ "]"

/-- Error message built by DownloadBackground on a non-200 status. -/
def bgNotFoundMsg (status : Nat) : String :=
  "背景が見つかりませんでした。(Background not found.) [" ++ toString status ++ "]"

/-- Go strings.HasPrefix s pre: whether pre is a leading substring of
s (stated on the character lists backing the strings). -/
def goHasPre (s pre : String) : Bool :=
  pre.data.isPrefixOf s.data

/-- The spec's NotFoundError kind, read off the three message strings
the code builds for a non-200 application response (metadata, level
data, background). -/
def isNotFoundMessage (e : String) : Bool :=
  e = chartNotFoundMsg
    || goHasPre e "譜面データが見つかりませんでした。"
    || goHasPre e "背景が見つかりませんでした。"

/-- chart.go DetectChartSource: matches the chart id against the fixed
table of known id beginnings ("ptlv-", "chcy-"); an unmatched id yields
a Source carrying the original chart id and an "unknown chart source"
error. -/
def DetectChartSource (chartId : String) : Source × Option String :=
  let source : Source :=
    if goHasPre chartId "ptlv-" then
      { id := "potato_leaves", name := "Potato Leaves",
        color := 0x88cb7f, host := "ptlv.sevenc7c.com" }
    else if goHasPre chartId "chcy-" then
      { id := "chart_cyanvas", name := "Chart Cyanvas",
        color := 0x83ccd2, host := "cc.sevenc7c.com" }
    else
      { id := "", name := "", color := 0, host := "" }
  if source.id = "" then
    ({ id := chartId, name := "", color := 0, host := "" },
      some "unknown chart source")
  else
    (source, none)

/-- chart.go FetchChart: GET https of the source host at
/sonolus/levels/chartId; transport failure and non-200 each return the
zero LevelInfo with an error; on 200 the body is JSON-decoded and the
decode error is discarded. -/
def FetchChart (env : Env) (source : Source) (chartId : String) :
    (LevelInfo × Option String) × List Event :=
  let url := "https://" ++ source.host ++ "/sonolus/levels/" ++ chartId
  match env.httpGet url with
  | .error _ => ((LevelInfo.zero, some connectFailedChartMsg), [.httpGet url])
  | .ok resp =>
    if resp.statusCode ≠ 200 then
      ((LevelInfo.zero, some chartNotFoundMsg), [.httpGet url])
    else
      let chart := env.decodeInfo resp.body
      ((chart.1.item, none), [.httpGet url])

/-- chart.go FetchLevelData: joins the data URL against the host (a
join failure returns before any network call), GETs it, requires 200,
then gzip-decompresses and JSON-decodes the body; both decode stages
fail with the same "loading chart data failed" wording. -/
def FetchLevelData (env : Env) (source : Source) (level : LevelInfo) :
    (LevelData × Option String) × List Event :=
  let joined := env.joinUrl ("https://" ++ source.host) level.data.url
  match joined.2 with
  | some e => ((LevelData.zero, some (urlParseFailMsg e)), [])
  | none =>
    let url := joined.1
    match env.httpGet url with
    | .error e => ((LevelData.zero, some (connectFailedMsg e)), [.httpGet url])
    | .ok resp =>
      if resp.statusCode ≠ 200 then
        ((LevelData.zero, some (levelDataNotFoundMsg resp.statusCode)), [.httpGet url])
      else
        match env.gzipDecode resp.body with
        | .error e => ((LevelData.zero, some (levelDataLoadFailMsg e)), [.httpGet url])
        | .ok raw =>
          match env.decodeLevelData raw with
          | .error e => ((LevelData.zero, some (levelDataLoadFailMsg e)), [.httpGet url])
          | .ok d => ((d, none), [.httpGet url])

/-- The 512x512 destination buffer `image.NewRGBA(image.Rect(0,0,512,512))`
filled by `draw.ApproxBiLinear.Scale` from the decoded source image:
its bounds are those of the destination rectangle, independent of the
source dimensions, and each pixel is an ApproxBiLinear sample of the
source (composited with draw.Over on the initially transparent
buffer). -/
def scaledCover (env : Env) (imageData : GoImage) : GoImage :=
  { width := 512, height := 512,
    pixelAt := fun x y => env.approxBiLinearSample imageData 512 512 x y }

/-- chart.go DownloadCover: joins the cover URL (join failure returns
before any network call), GETs it, requires 200 (with the
could-not-connect wording on other statuses), creates destPath with
os.MkdirAll(destPath, 0755), decodes the image, rescales it onto a
512x512 buffer with draw.ApproxBiLinear, then creates
destPath/cover.png and png.Encodes the buffer into it. -/
def DownloadCover (env : Env) (source : Source) (level : LevelInfo) (destPath : String) :
    Option String × List Event :=
  let joined := env.joinUrl ("https://" ++ source.host) level.cover.url
  match joined.2 with
  | some e => (some (urlParseFailMsg e), [])
  | none =>
    let url := joined.1
    match env.httpGet url with
    | .error e => (some (coverConnectFailedMsg e), [.httpGet url])
    | .ok resp =>
      if resp.statusCode ≠ 200 then
        (some (coverNon200Msg resp.statusCode), [.httpGet url])
      else
        let ev := [Event.httpGet url, Event.mkdirAll destPath 0o755]
        match env.imageDecode resp.body with
        | .error e => (some (jacketLoadFailMsg e), ev)
        | .ok imageData =>
          let newImage := scaledCover env imageData
          let coverFile := pathJoin destPath "cover.png"
          match env.fileCreate coverFile with
          | some e => (some (fileCreateFailMsg e), ev ++ [.fileCreate coverFile])
          | none =>
            match env.ioCopyErr with
            | some e =>
              (some (fileWriteFailMsg e),
                ev ++ [.fileCreate coverFile, .fileWrite coverFile env.ioCopyWrittenOnErr])
            | none =>
              (none,
                ev ++ [.fileCreate coverFile, .fileWrite coverFile (env.pngEncode newImage)])

/-- chart.go DownloadBackground: joins the background URL but never
checks the join error (the err variable is immediately overwritten by
http.Get), GETs the joined URL, requires 200, creates
destPath/background.png, io.Copies the body into it discarding the
copy's own result, then re-checks the stale create error variable
(already known nil) before returning nil. -/
def DownloadBackground (env : Env) (source : Source) (level : LevelInfo) (destPath : String) :
    Option String × List Event :=
  let joined := env.joinUrl ("https://" ++ source.host) level.useBackground.item.image.url
  let backgroundUrl := joined.1
  match env.httpGet backgroundUrl with
  | .error e => (some (connectFailedMsg e), [.httpGet backgroundUrl])
  | .ok resp =>
    if resp.statusCode ≠ 200 then
      (some (bgNotFoundMsg resp.statusCode), [.httpGet backgroundUrl])
    else
      let bgFile := pathJoin destPath "background.png"
      let err := env.fileCreate bgFile
      match err with
      | some e => (some (fileCreateFailMsg e), [.httpGet backgroundUrl, .fileCreate bgFile])
      | none =>
        let written :=
          match env.ioCopyErr with
          | none => resp.body
          | some _ => env.ioCopyWrittenOnErr
        let ev := [Event.httpGet backgroundUrl, Event.fileCreate bgFile,
          Event.fileWrite bgFile written]
        match err with
        | some e => (some (fileWriteFailMsg e), ev)
        | none => (none, ev)

/-- Concrete fixture: the potato_leaves source, as DetectChartSource
registers it. -/
def srcT : Source :=
  { id := "potato_leaves", name := "Potato Leaves",
    color := 0x88cb7f, host := "ptlv.sevenc7c.com" }

/-- Concrete fixture: a metadata record with relative URLs. -/
def lvlT : LevelInfo :=
  { data := ⟨"/data.gz"⟩, cover := ⟨"/cover.jpg"⟩,
    useBackground := ⟨⟨⟨"/bg.png"⟩⟩⟩ }

/-- Concrete fixture: a 100x50 decoded source image. -/
def imgT : GoImage :=
  { width := 100, height := 50, pixelAt := fun _ _ => 7 }

/-- Concrete fixture: a fully successful environment.  The stub server
answers every GET with status 200 and body [9, 9], which gzip-decodes
to [7], which JSON-decodes to the document "chart-doc"; metadata JSON
decoding reports an error (malformed body) while still filling in
lvlT; images decode to the 100x50 imgT; PNG encoding is stubbed by
recording the image dimensions. -/
def envOk : Env :=
  { httpGet := fun _ => .ok { statusCode := 200, body := [9, 9] },
    joinUrl := fun base rel => (base ++ rel, none),
    gzipDecode := fun b => if b = [9, 9] then .ok [7] else .error "gzip: invalid header",
    decodeLevelData := fun b => if b = [7] then .ok ⟨"chart-doc"⟩ else .error "invalid character",
    decodeInfo := fun _ => (⟨lvlT⟩, some "invalid character"),
    imageDecode := fun _ => .ok imgT,
    approxBiLinearSample := fun src _ _ x y => src.pixelAt x y,
    pngEncode := fun i => [i.width, i.height],
    fileCreate := fun _ => none,
    ioCopyErr := none,
    ioCopyWrittenOnErr := [] }

/-- Concrete fixture: like envOk but every GET answers 404 with an
empty body. -/
def env404 : Env :=
  { envOk with httpGet := fun _ => .ok { statusCode := 404, body := [] } }

/-- Concrete fixture: like envOk but the URL join fails, returning the
empty URL plus an error, and a GET on the empty URL fails at the
transport level. -/
def envBadUrl : Env :=
  { envOk with
    joinUrl := fun _ _ => ("", some "invalid URL"),
    httpGet := fun u =>
      if u = "" then .error "unsupported protocol scheme" else .ok { statusCode := 200, body := [9, 9] } }

/-- Concrete fixture: like envOk but the byte copy into the output
file fails after writing a single byte. -/
def envCopyFail : Env :=
  { envOk with ioCopyErr := some "disk full", ioCopyWrittenOnErr := [9] }

/-- Concrete fixture: like envOk but the GET returns a non-gzip body. -/
def envNotGzip : Env :=
  { envOk with httpGet := fun _ => .ok { statusCode := 200, body := [0] } }

/-- Concrete fixture: a 1000x1000 decoded source image. -/
def imgBig : GoImage :=
  { width := 1000, height := 1000, pixelAt := fun _ _ => 3 }

/-- Concrete fixture: like envOk but images decode to the 1000x1000
imgBig. -/
def envBig : Env :=
  { envOk with imageDecode := fun _ => .ok imgBig }

/-- C1: DetectChartSource maps every chart id carrying a registered
marker ("ptlv-", "chcy-") to the registered entry with a nil error, a
non-empty host, and the registered id (e.g. "ptlv-" ids map to
potato_leaves at ptlv.sevenc7c.com); every id with no registered
marker yields the "unknown chart source" error together with a Source
carrying the original chart id and empty name and host. -/
theorem C1_detect_chart_source (cid : String) :
    (goHasPre cid "ptlv-" = true →
      DetectChartSource cid =
        ({ id := "potato_leaves", name := "Potato Leaves",
           color := 0x88cb7f, host := "ptlv.sevenc7c.com" }, none))
    ∧ (goHasPre cid "ptlv-" = false → goHasPre cid "chcy-" = true →
      DetectChartSource cid =
        ({ id := "chart_cyanvas", name := "Chart Cyanvas",
           color := 0x83ccd2, host := "cc.sevenc7c.com" }, none))
    ∧ ((goHasPre cid "ptlv-" = true ∨ goHasPre cid "chcy-" = true) →
      (DetectChartSource cid).2 = none ∧ (DetectChartSource cid).1.host ≠ "")
    ∧ (goHasPre cid "ptlv-" = false → goHasPre cid "chcy-" = false →
      DetectChartSource cid =
        ({ id := cid, name := "", color := 0, host := "" },
          some "unknown chart source")) := by
  by_cases h1 : goHasPre cid "ptlv-" <;> by_cases h2 : goHasPre cid "chcy-" <;>
    simp [DetectChartSource, h1, h2]

/-- Witness for C1 at the spec's concrete scenario: "ptlv-abc123"
resolves to potato_leaves and "xyz-000" resolves to the unknown-source
error. -/
theorem C1_detect_chart_source_witness :
    goHasPre "ptlv-abc123" "ptlv-" = true
    ∧ DetectChartSource "ptlv-abc123" =
        ({ id := "potato_leaves", name := "Potato Leaves",
           color := 0x88cb7f, host := "ptlv.sevenc7c.com" }, none)
    ∧ goHasPre "xyz-000" "ptlv-" = false
    ∧ goHasPre "xyz-000" "chcy-" = false
    ∧ DetectChartSource "xyz-000" =
        ({ id := "xyz-000", name := "", color := 0, host := "" },
          some "unknown chart source") :=
  ⟨by decide, (C1_detect_chart_source "ptlv-abc123").1 (by decide),
    by decide, by decide,
    (C1_detect_chart_source "xyz-000").2.2.2 (by decide) (by decide)⟩

/-- C5: on any response with a status other than 200, FetchChart
returns the zero LevelInfo together with the "not found" error; the
response body is discarded (the result is this same pair for every
body, and no decode takes place). -/
theorem C5_fetch_metadata_non200 (env : Env) (source : Source) (chartId : String)
    (resp : HttpResponse)
    (hget : env.httpGet ("https://" ++ source.host ++ "/sonolus/levels/" ++ chartId) = .ok resp)
    (hstatus : resp.statusCode ≠ 200) :
    FetchChart env source chartId =
      ((LevelInfo.zero, some chartNotFoundMsg),
        [Event.httpGet ("https://" ++ source.host ++ "/sonolus/levels/" ++ chartId)]) := by
  simp [FetchChart, hget, hstatus]

/-- Witness for C5: a 404 from the metadata endpoint yields the zero
LevelInfo and the not-found error. -/
theorem C5_fetch_metadata_non200_witness :
    env404.httpGet ("https://" ++ srcT.host ++ "/sonolus/levels/" ++ "ptlv-abc123") =
      .ok { statusCode := 404, body := [] }
    ∧ (404 : Nat) ≠ 200
    ∧ FetchChart env404 srcT "ptlv-abc123" =
        ((LevelInfo.zero, some chartNotFoundMsg),
          [Event.httpGet ("https://" ++ srcT.host ++ "/sonolus/levels/" ++ "ptlv-abc123")]) :=
  ⟨rfl, by decide,
    C5_fetch_metadata_non200 env404 srcT "ptlv-abc123"
      { statusCode := 404, body := [] } rfl (by decide)⟩

/-- C9: on a 200 response FetchChart returns a nil error no matter what
the JSON decoder reports: the result is whatever item the decoder wrote
into the envelope, paired with none, so a malformed body is not
surfaced to the caller. -/
theorem C9_fetch_metadata_decode_error_ignored (env : Env) (source : Source)
    (chartId : String) (resp : HttpResponse)
    (hget : env.httpGet ("https://" ++ source.host ++ "/sonolus/levels/" ++ chartId) = .ok resp)
    (hstatus : resp.statusCode = 200) :
    FetchChart env source chartId =
      (((env.decodeInfo resp.body).1.item, none),
        [Event.httpGet ("https://" ++ source.host ++ "/sonolus/levels/" ++ chartId)]) := by
  simp [FetchChart, hget, hstatus]

/-- Witness for C9: a 200 body on which the JSON decoder reports an
error still produces a nil-error result carrying the decoder's
partially-filled item. -/
theorem C9_fetch_metadata_decode_error_ignored_witness :
    envOk.httpGet ("https://" ++ srcT.host ++ "/sonolus/levels/" ++ "ptlv-abc123") =
      .ok { statusCode := 200, body := [9, 9] }
    ∧ (envOk.decodeInfo [9, 9]).2 = some "invalid character"
    ∧ FetchChart envOk srcT "ptlv-abc123" =
        (((envOk.decodeInfo ([9, 9] : List Nat)).1.item, none),
          [Event.httpGet ("https://" ++ srcT.host ++ "/sonolus/levels/" ++ "ptlv-abc123")])
    ∧ (envOk.decodeInfo ([9, 9] : List Nat)).1.item = lvlT :=
  ⟨rfl, rfl,
    C9_fetch_metadata_decode_error_ignored envOk srcT "ptlv-abc123"
      { statusCode := 200, body := [9, 9] } rfl rfl,
    rfl⟩

/-- C3: once the data URL joins cleanly, a 200 body that
gzip-decompresses to bytes that JSON-decode to a LevelData value d
makes FetchLevelData return exactly d with a nil error (so a body
produced by serialising d and gzip-compressing it round-trips to a
structurally equal record), while a 200 body the gzip reader rejects
fails with the "loading chart data failed" error wrapping the gzip
error. -/
theorem C3_fetch_level_data_round_trip (env : Env) (source : Source) (level : LevelInfo)
    (url : String)
    (hjoin : env.joinUrl ("https://" ++ source.host) level.data.url = (url, none)) :
    (∀ (gz raw : List Nat) (d : LevelData),
      env.httpGet url = .ok { statusCode := 200, body := gz } →
      env.gzipDecode gz = .ok raw →
      env.decodeLevelData raw = .ok d →
      FetchLevelData env source level = ((d, none), [Event.httpGet url]))
    ∧ (∀ (body : List Nat) (e : String),
      env.httpGet url = .ok { statusCode := 200, body := body } →
      env.gzipDecode body = .error e →
      FetchLevelData env source level =
        ((LevelData.zero, some (levelDataLoadFailMsg e)), [Event.httpGet url])) := by
  constructor
  · intro gz raw d hget hgz hjson
    simp [FetchLevelData, hjoin, hget, hgz, hjson]
  · intro body e hget hgz
    simp [FetchLevelData, hjoin, hget, hgz]

/-- Witness for C3: the stub server's gzip-compressed JSON body
round-trips to the document "chart-doc", and a non-gzip body fails with
the loading-failed error wrapping the invalid-header message. -/
theorem C3_fetch_level_data_round_trip_witness :
    envOk.joinUrl ("https://" ++ srcT.host) lvlT.data.url =
      ("https://ptlv.sevenc7c.com/data.gz", none)
    ∧ envOk.gzipDecode [9, 9] = .ok [7]
    ∧ envOk.decodeLevelData [7] = .ok ⟨"chart-doc"⟩
    ∧ FetchLevelData envOk srcT lvlT =
        (((⟨"chart-doc"⟩ : LevelData), none),
          [Event.httpGet "https://ptlv.sevenc7c.com/data.gz"])
    ∧ envNotGzip.gzipDecode [0] = .error "gzip: invalid header"
    ∧ FetchLevelData envNotGzip srcT lvlT =
        ((LevelData.zero, some (levelDataLoadFailMsg "gzip: invalid header")),
          [Event.httpGet "https://ptlv.sevenc7c.com/data.gz"]) :=
  ⟨rfl, rfl, rfl,
    (C3_fetch_level_data_round_trip envOk srcT lvlT
      "https://ptlv.sevenc7c.com/data.gz" rfl).1 [9, 9] [7] ⟨"chart-doc"⟩ rfl rfl rfl,
    rfl,
    (C3_fetch_level_data_round_trip envNotGzip srcT lvlT
      "https://ptlv.sevenc7c.com/data.gz" rfl).2 [0] "gzip: invalid header" rfl rfl⟩

/-- C2: on a successfully decoded input image of any dimensions,
DownloadCover writes to destPath/cover.png the png.Encode of the image
obtained by ApproxBiLinear-resampling the input onto the fixed 512x512
destination buffer: the encoded image has width and height exactly 512
whatever the input dimensions, with no aspect-ratio preservation (the
destination rectangle is constant). -/
theorem C2_download_cover_512 (env : Env) (source : Source) (level : LevelInfo)
    (destPath url : String) (resp : HttpResponse) (imageData : GoImage)
    (hjoin : env.joinUrl ("https://" ++ source.host) level.cover.url = (url, none))
    (hget : env.httpGet url = .ok resp)
    (hstatus : resp.statusCode = 200)
    (hdecode : env.imageDecode resp.body = .ok imageData)
    (hcreate : env.fileCreate (pathJoin destPath "cover.png") = none)
    (hwrite : env.ioCopyErr = none) :
    DownloadCover env source level destPath =
      (none,
        [Event.httpGet url, Event.mkdirAll destPath 0o755,
          Event.fileCreate (pathJoin destPath "cover.png"),
          Event.fileWrite (pathJoin destPath "cover.png")
            (env.pngEncode (scaledCover env imageData))])
    ∧ (scaledCover env imageData).width = 512
    ∧ (scaledCover env imageData).height = 512 := by
  refine ⟨?_, rfl, rfl⟩
  simp [DownloadCover, hjoin, hget, hstatus, hdecode, hcreate, hwrite]

/-- Witness for C2 at the spec's two test dimensions: a 100x50 input
and a 1000x1000 input both come out as a 512x512 encoded image (the
stub encoder records the dimensions of the image it receives). -/
theorem C2_download_cover_512_witness :
    envOk.imageDecode [9, 9] = .ok imgT
    ∧ imgT.width = 100 ∧ imgT.height = 50
    ∧ DownloadCover envOk srcT lvlT "out" =
        (none,
          [Event.httpGet "https://ptlv.sevenc7c.com/cover.jpg",
            Event.mkdirAll "out" 0o755,
            Event.fileCreate (pathJoin "out" "cover.png"),
            Event.fileWrite (pathJoin "out" "cover.png")
              (envOk.pngEncode (scaledCover envOk imgT))])
    ∧ envOk.pngEncode (scaledCover envOk imgT) = [512, 512]
    ∧ envBig.imageDecode [9, 9] = .ok imgBig
    ∧ imgBig.width = 1000 ∧ imgBig.height = 1000
    ∧ DownloadCover envBig srcT lvlT "out" =
        (none,
          [Event.httpGet "https://ptlv.sevenc7c.com/cover.jpg",
            Event.mkdirAll "out" 0o755,
            Event.fileCreate (pathJoin "out" "cover.png"),
            Event.fileWrite (pathJoin "out" "cover.png")
              (envBig.pngEncode (scaledCover envBig imgBig))])
    ∧ envBig.pngEncode (scaledCover envBig imgBig) = [512, 512] :=
  ⟨rfl, rfl, rfl,
    (C2_download_cover_512 envOk srcT lvlT "out"
      "https://ptlv.sevenc7c.com/cover.jpg" { statusCode := 200, body := [9, 9] }
      imgT rfl rfl rfl rfl rfl rfl).1,
    rfl, rfl, rfl, rfl,
    (C2_download_cover_512 envBig srcT lvlT "out"
      "https://ptlv.sevenc7c.com/cover.jpg" { statusCode := 200, body := [9, 9] }
      imgBig rfl rfl rfl rfl rfl rfl).1,
    rfl⟩

/-- C4: on a 200 response, once file creation succeeds and the byte
copy completes, DownloadBackground writes exactly the response body,
byte for byte with no decode or transform, to destPath/background.png,
and returns nil. -/
theorem C4_download_background_verbatim (env : Env) (source : Source) (level : LevelInfo)
    (destPath url : String) (resp : HttpResponse)
    (hjoin : (env.joinUrl ("https://" ++ source.host) level.useBackground.item.image.url).1 = url)
    (hget : env.httpGet url = .ok resp)
    (hstatus : resp.statusCode = 200)
    (hcreate : env.fileCreate (pathJoin destPath "background.png") = none)
    (hcopy : env.ioCopyErr = none) :
    DownloadBackground env source level destPath =
      (none,
        [Event.httpGet url,
          Event.fileCreate (pathJoin destPath "background.png"),
          Event.fileWrite (pathJoin destPath "background.png") resp.body]) := by
  simp [DownloadBackground, hjoin, hget, hstatus, hcreate, hcopy]

/-- Witness for C4: the stub body [9, 9] lands verbatim in
out/background.png. -/
theorem C4_download_background_verbatim_witness :
    (envOk.joinUrl ("https://" ++ srcT.host) lvlT.useBackground.item.image.url).1 =
      "https://ptlv.sevenc7c.com/bg.png"
    ∧ envOk.httpGet "https://ptlv.sevenc7c.com/bg.png" =
        .ok { statusCode := 200, body := [9, 9] }
    ∧ DownloadBackground envOk srcT lvlT "out" =
        (none,
          [Event.httpGet "https://ptlv.sevenc7c.com/bg.png",
            Event.fileCreate (pathJoin "out" "background.png"),
            Event.fileWrite (pathJoin "out" "background.png") [9, 9]]) :=
  ⟨rfl, rfl,
    C4_download_background_verbatim envOk srcT lvlT "out"
      "https://ptlv.sevenc7c.com/bg.png" { statusCode := 200, body := [9, 9] }
      rfl rfl rfl rfl rfl⟩

/-- C10: the write-failure check after io.Copy re-reads the error
variable set by os.Create, which was already checked to be nil, not the
copy's own result; so on a 200 response with a successful file
creation, DownloadBackground returns nil whatever the copy's error
outcome is (the statement quantifies over every environment, covering
both a failed and a successful copy). -/
theorem C10_download_background_stale_error_check (env : Env) (source : Source)
    (level : LevelInfo) (destPath : String) (resp : HttpResponse)
    (hget : env.httpGet
      (env.joinUrl ("https://" ++ source.host) level.useBackground.item.image.url).1 = .ok resp)
    (hstatus : resp.statusCode = 200)
    (hcreate : env.fileCreate (pathJoin destPath "background.png") = none) :
    (DownloadBackground env source level destPath).1 = none := by
  cases hcopy : env.ioCopyErr <;>
    simp [DownloadBackground, hget, hstatus, hcreate, hcopy]

/-- Witness for C10: with a copy that fails after one byte (disk
full), DownloadBackground still returns nil. -/
theorem C10_download_background_stale_error_check_witness :
    envCopyFail.ioCopyErr = some "disk full"
    ∧ envCopyFail.httpGet "https://ptlv.sevenc7c.com/bg.png" =
        .ok { statusCode := 200, body := [9, 9] }
    ∧ (DownloadBackground envCopyFail srcT lvlT "out").1 = none :=
  ⟨rfl, rfl,
    C10_download_background_stale_error_check envCopyFail srcT lvlT "out"
      { statusCode := 200, body := [9, 9] } rfl rfl rfl⟩

/-- Helper: a leading-substring check survives appending on the
right. -/
theorem goHasPre_append (a b m : String) (h : goHasPre a m = true) :
    goHasPre (a ++ b) m = true := by
  have h' : m.data <+: a.data := by
    simpa [goHasPre, List.isPrefixOf_iff_prefix] using h
  have h2 : m.data <+: a.data ++ b.data := h'.trans (List.prefix_append _ _)
  simpa [goHasPre, List.isPrefixOf_iff_prefix, String.data_append] using h2

/-- Helper: FetchLevelData's non-200 message is of the NotFoundError
kind for every status code. -/
theorem isNotFoundMessage_levelData (s : Nat) :
    isNotFoundMessage (levelDataNotFoundMsg s) = true := by
  have h : goHasPre
      (("譜面データが見つかりませんでした。(No chart data found.) [" ++ toString s) ++ "]")
      "譜面データが見つかりませんでした。" = true :=
    goHasPre_append _ _ _ (goHasPre_append _ _ _ (by decide))
  simp [isNotFoundMessage, levelDataNotFoundMsg, h]

/-- Helper: DownloadBackground's non-200 message is of the
NotFoundError kind for every status code. -/
theorem isNotFoundMessage_bg (s : Nat) :
    isNotFoundMessage (bgNotFoundMsg s) = true := by
  have h : goHasPre
      (("背景が見つかりませんでした。(Background not found.) [" ++ toString s) ++ "]")
      "背景が見つかりませんでした。" = true :=
    goHasPre_append _ _ _ (goHasPre_append _ _ _ (by decide))
  simp [isNotFoundMessage, bgNotFoundMsg, h]

/-- Helper: DownloadCover's non-200 message carries the
could-not-connect wording for every status code. -/
theorem coverNon200_connect_worded (s : Nat) :
    goHasPre (coverNon200Msg s) "サーバーに接続できませんでした。" = true := by
  show goHasPre
    (("サーバーに接続できませんでした。(Could not connect to server.) [" ++ toString s) ++ "]")
    "サーバーに接続できませんでした。" = true
  exact goHasPre_append _ _ _ (goHasPre_append _ _ _ (by decide))

/-- Counterexample to C6 as stated: with a malformed relative URL (the
join reports an error and yields the empty URL), DownloadBackground
does not fail with a URL-parsing error before any network call: its
trace contains the network call on the empty URL, and its result is
the could-not-connect transport error, not a URL-parsing one. -/
theorem C6_counterexample :
    (envBadUrl.joinUrl ("https://" ++ srcT.host) lvlT.useBackground.item.image.url).2 =
      some "invalid URL"
    ∧ (DownloadBackground envBadUrl srcT lvlT "out").2 = [Event.httpGet ""]
    ∧ (DownloadBackground envBadUrl srcT lvlT "out").1 =
        some (connectFailedMsg "unsupported protocol scheme")
    ∧ goHasPre ((DownloadBackground envBadUrl srcT lvlT "out").1.getD "")
        "URLの解析に失敗しました。" = false :=
  ⟨rfl, rfl, rfl, by decide⟩

/-- C6 amended: when the relative URL is malformed, FetchLevelData and
DownloadCover fail with the URL-parsing error before any network call
(their event lists are empty); DownloadBackground instead never checks
the join error and always issues the network call on whatever URL
string the join returned (its first event is that GET). -/
theorem C6_url_resolution (env : Env) (source : Source) (level : LevelInfo)
    (destPath : String) (e : String) :
    ((env.joinUrl ("https://" ++ source.host) level.data.url).2 = some e →
      FetchLevelData env source level =
        ((LevelData.zero, some (urlParseFailMsg e)), []))
    ∧ ((env.joinUrl ("https://" ++ source.host) level.cover.url).2 = some e →
      DownloadCover env source level destPath = (some (urlParseFailMsg e), []))
    ∧ (DownloadBackground env source level destPath).2.head? =
        some (Event.httpGet
          (env.joinUrl ("https://" ++ source.host) level.useBackground.item.image.url).1) := by
  refine ⟨fun h => ?_, fun h => ?_, ?_⟩
  · simp [FetchLevelData, h]
  · simp [DownloadCover, h]
  · cases hg : env.httpGet
        (env.joinUrl ("https://" ++ source.host) level.useBackground.item.image.url).1 with
    | error e' => simp [DownloadBackground, hg]
    | ok resp =>
      by_cases hs : resp.statusCode = 200
      · cases hc : env.fileCreate (pathJoin destPath "background.png") with
        | some e' => simp [DownloadBackground, hg, hs, hc]
        | none => cases hio : env.ioCopyErr <;> simp [DownloadBackground, hg, hs, hc, hio]
      · simp [DownloadBackground, hg, hs]

/-- Witness for the amended C6: with the failing join, FetchLevelData
and DownloadCover return the URL-parsing error with an empty event
list, while DownloadBackground's first event is the GET on the empty
joined URL. -/
theorem C6_url_resolution_witness :
    (envBadUrl.joinUrl ("https://" ++ srcT.host) lvlT.data.url).2 = some "invalid URL"
    ∧ FetchLevelData envBadUrl srcT lvlT =
        ((LevelData.zero, some (urlParseFailMsg "invalid URL")), [])
    ∧ (envBadUrl.joinUrl ("https://" ++ srcT.host) lvlT.cover.url).2 = some "invalid URL"
    ∧ DownloadCover envBadUrl srcT lvlT "out" = (some (urlParseFailMsg "invalid URL"), [])
    ∧ (DownloadBackground envBadUrl srcT lvlT "out").2.head? = some (Event.httpGet "") :=
  ⟨rfl, (C6_url_resolution envBadUrl srcT lvlT "out" "invalid URL").1 rfl,
    rfl, (C6_url_resolution envBadUrl srcT lvlT "out" "invalid URL").2.1 rfl,
    (C6_url_resolution envBadUrl srcT lvlT "out" "invalid URL").2.2⟩

/-- Counterexample to C7 as stated: a 404 on the cover endpoint makes
DownloadCover fail with the could-not-connect wording (the same text
used for transport failures), which is not one of the code's not-found
messages, so a non-200 response does not always produce a NotFoundError. -/
theorem C7_counterexample :
    (DownloadCover env404 srcT lvlT "out").1 = some (coverNon200Msg 404)
    ∧ isNotFoundMessage (coverNon200Msg 404) = false
    ∧ coverNon200Msg 404 = connectFailedMsg "404" :=
  ⟨rfl, by decide, by decide⟩

/-- C7 amended: a non-200 response makes FetchChart, FetchLevelData and
DownloadBackground fail with their NotFoundError-kind messages, while
DownloadCover fails with the could-not-connect wording; in every case
the operation performs no directory creation, file creation or file
write (the download traces contain only the GET event, so no partial
output file is produced). -/
theorem C7_non200_behavior (env : Env) (source : Source) (level : LevelInfo)
    (chartId destPath : String) (resp : HttpResponse)
    (hstatus : resp.statusCode ≠ 200) :
    (env.httpGet ("https://" ++ source.host ++ "/sonolus/levels/" ++ chartId) = .ok resp →
      (FetchChart env source chartId).1.2 = some chartNotFoundMsg
      ∧ isNotFoundMessage chartNotFoundMsg = true)
    ∧ ((env.joinUrl ("https://" ++ source.host) level.data.url).2 = none →
      env.httpGet (env.joinUrl ("https://" ++ source.host) level.data.url).1 = .ok resp →
      (FetchLevelData env source level).1.2 = some (levelDataNotFoundMsg resp.statusCode)
      ∧ isNotFoundMessage (levelDataNotFoundMsg resp.statusCode) = true)
    ∧ (env.httpGet
        (env.joinUrl ("https://" ++ source.host) level.useBackground.item.image.url).1 = .ok resp →
      DownloadBackground env source level destPath =
        (some (bgNotFoundMsg resp.statusCode),
          [Event.httpGet
            (env.joinUrl ("https://" ++ source.host) level.useBackground.item.image.url).1])
      ∧ isNotFoundMessage (bgNotFoundMsg resp.statusCode) = true)
    ∧ ((env.joinUrl ("https://" ++ source.host) level.cover.url).2 = none →
      env.httpGet (env.joinUrl ("https://" ++ source.host) level.cover.url).1 = .ok resp →
      DownloadCover env source level destPath =
        (some (coverNon200Msg resp.statusCode),
          [Event.httpGet (env.joinUrl ("https://" ++ source.host) level.cover.url).1])
      ∧ goHasPre (coverNon200Msg resp.statusCode) "サーバーに接続できませんでした。" = true) := by
  refine ⟨fun hget => ⟨?_, by decide⟩,
    fun hjoin hget => ⟨?_, isNotFoundMessage_levelData _⟩,
    fun hget => ⟨?_, isNotFoundMessage_bg _⟩,
    fun hjoin hget => ⟨?_, coverNon200_connect_worded _⟩⟩
  · simp [FetchChart, hget, hstatus]
  · simp [FetchLevelData, hjoin, hget, hstatus]
  · simp [DownloadBackground, hget, hstatus]
  · simp [DownloadCover, hjoin, hget, hstatus]

/-- Witness for the amended C7: a uniform 404 gives the not-found
messages on metadata, level data and background, the connect-worded
message on the cover, and traces containing only the GET events. -/
theorem C7_non200_behavior_witness :
    (FetchChart env404 srcT "ptlv-abc123").1.2 = some chartNotFoundMsg
    ∧ (FetchLevelData env404 srcT lvlT).1.2 = some (levelDataNotFoundMsg 404)
    ∧ isNotFoundMessage (levelDataNotFoundMsg 404) = true
    ∧ DownloadBackground env404 srcT lvlT "out" =
        (some (bgNotFoundMsg 404), [Event.httpGet "https://ptlv.sevenc7c.com/bg.png"])
    ∧ DownloadCover env404 srcT lvlT "out" =
        (some (coverNon200Msg 404), [Event.httpGet "https://ptlv.sevenc7c.com/cover.jpg"])
    ∧ goHasPre (coverNon200Msg 404) "サーバーに接続できませんでした。" = true := by
  have T := C7_non200_behavior env404 srcT lvlT "ptlv-abc123" "out"
    { statusCode := 404, body := [] } (by decide)
  exact ⟨(T.1 rfl).1, (T.2.1 rfl rfl).1, (T.2.1 rfl rfl).2,
    (T.2.2.1 rfl).1, (T.2.2.2 rfl rfl).1, (T.2.2.2 rfl rfl).2⟩

/-- Counterexample to C8 as stated: in a fully successful run,
DownloadBackground writes out/background.png without ever creating the
destination directory — its trace contains the file write but no
mkdirAll event, so it is not the case that each asset operation creates
the shared destination directory before writing. -/
theorem C8_counterexample :
    (DownloadBackground envOk srcT lvlT "out").1 = none
    ∧ (DownloadBackground envOk srcT lvlT "out").2 =
        [Event.httpGet "https://ptlv.sevenc7c.com/bg.png",
          Event.fileCreate (pathJoin "out" "background.png"),
          Event.fileWrite (pathJoin "out" "background.png") [9, 9]]
    ∧ Event.mkdirAll "out" 0o755 ∉ (DownloadBackground envOk srcT lvlT "out").2 :=
  ⟨rfl, rfl, by decide⟩

/-- C8 amended: only DownloadCover creates the destination directory:
after its status check it performs mkdirAll on destPath with
permission 0755 (creating parents) before any file creation or write,
whereas DownloadBackground never performs any directory creation and
relies on the directory already existing. -/
theorem C8_dir_creation (env : Env) (source : Source) (level : LevelInfo)
    (destPath : String) :
    (∀ resp : HttpResponse,
      (env.joinUrl ("https://" ++ source.host) level.cover.url).2 = none →
      env.httpGet (env.joinUrl ("https://" ++ source.host) level.cover.url).1 = .ok resp →
      resp.statusCode = 200 →
      ∃ rest, (DownloadCover env source level destPath).2 =
        Event.httpGet (env.joinUrl ("https://" ++ source.host) level.cover.url).1
          :: Event.mkdirAll destPath 0o755 :: rest)
    ∧ (∀ (d : String) (m : Nat),
      Event.mkdirAll d m ∉ (DownloadBackground env source level destPath).2) := by
  constructor
  · intro resp hjoin hget hstatus
    cases hdec : env.imageDecode resp.body with
    | error e =>
      exact ⟨[], by simp [DownloadCover, hjoin, hget, hstatus, hdec]⟩
    | ok imageData =>
      cases hc : env.fileCreate (pathJoin destPath "cover.png") with
      | some e =>
        exact ⟨[Event.fileCreate (pathJoin destPath "cover.png")],
          by simp [DownloadCover, hjoin, hget, hstatus, hdec, hc]⟩
      | none =>
        cases hio : env.ioCopyErr with
        | some e =>
          exact ⟨[Event.fileCreate (pathJoin destPath "cover.png"),
              Event.fileWrite (pathJoin destPath "cover.png") env.ioCopyWrittenOnErr],
            by simp [DownloadCover, hjoin, hget, hstatus, hdec, hc, hio]⟩
        | none =>
          exact ⟨[Event.fileCreate (pathJoin destPath "cover.png"),
              Event.fileWrite (pathJoin destPath "cover.png")
                (env.pngEncode (scaledCover env imageData))],
            by simp [DownloadCover, hjoin, hget, hstatus, hdec, hc, hio]⟩
  · intro d m
    cases hg : env.httpGet
        (env.joinUrl ("https://" ++ source.host) level.useBackground.item.image.url).1 with
    | error e => simp [DownloadBackground, hg]
    | ok resp =>
      by_cases hs : resp.statusCode = 200
      · cases hc : env.fileCreate (pathJoin destPath "background.png") with
        | some e => simp [DownloadBackground, hg, hs, hc]
        | none => cases hio : env.ioCopyErr <;> simp [DownloadBackground, hg, hs, hc, hio]
      · simp [DownloadBackground, hg, hs]

/-- Witness for the amended C8: in the successful run, DownloadCover's
trace starts with the GET followed by the mkdirAll of the destination
directory, and DownloadBackground's trace contains no mkdirAll. -/
theorem C8_dir_creation_witness :
    (∃ rest, (DownloadCover envOk srcT lvlT "out").2 =
      Event.httpGet "https://ptlv.sevenc7c.com/cover.jpg"
        :: Event.mkdirAll "out" 0o755 :: rest)
    ∧ Event.mkdirAll "out" 0o755 ∉ (DownloadBackground envOk srcT lvlT "out").2 :=
  ⟨(C8_dir_creation envOk srcT lvlT "out").1 { statusCode := 200, body := [9, 9] } rfl rfl rfl,
    (C8_dir_creation envOk srcT lvlT "out").2 "out" 0o755⟩

end PjsekaiOverlay
